import Mathlib

/-!
A shallow embedding of the logic-simulator front end (`scanner.py` and
`parse.py`): the tokenizer that turns source lines into typed symbols,
and the recursive-descent parser that validates statements and forwards
construction calls to the external device/network/monitor builders.

Modelling conventions:
* interned identifiers are represented by the (lower-cased, stripped)
  fragment string itself — the Name Interner is a bijection between
  strings and ids within a run, so this preserves all id comparisons;
* the scanner's generator is represented by the list of symbols it
  yields, in order; pulling from an exhausted generator (StopIteration)
  is the `none` / `crash` outcome;
* a Python exception that escapes every handler (IndexError from
  indexing an empty literal, ValueError from `int()` on a string with a
  character that has no decimal value, StopIteration past the end of the
  stream) is the `crash` outcome, distinct from a raised `ParsingError`;
* source lines are given without their trailing newline character.
-/

/-- Token kinds, mirroring the integer constants of `Scanner`. -/
inductive TokenKind where
  | CLOCK | SWITCH | AND | OR | NAND | NOR | DTYPE | XOR
  | DOT | COMMA | OPEN | CLOSE | WHITESPACE | EQUALS
  | NAME | NUMBER | INVALID | EOL | EOF
  | MONITOR
deriving DecidableEq, Repr

/-- A scanner symbol: kind, optional interned identifier (the fragment
string), optional column offset within its line. -/
structure PSym where
  type : TokenKind
  id : Option String
  loc : Option Nat
deriving DecidableEq, Repr

/-- The characters on which `re.split` breaks a line, besides spaces. -/
def isDelim (c : Char) : Bool :=
  c = '.' || c = ',' || c = '(' || c = ')' || c = '='

/-- `re.split(r"(\.|,|\(|\)| +|=)", line)`: fragments of the line with the
matched delimiters kept as fragments of their own; a run of spaces is a
single delimiter fragment; empty fragments appear between adjacent
delimiters and at the ends. -/
def splitFragments : List Char → List (List Char)
  | [] => [[]]
  | c :: cs =>
    let rest := splitFragments cs
    if isDelim c then [] :: [c] :: rest
    else if c = ' ' then
      match rest with
      | [] :: (d :: ds) :: fs =>
        if d = ' ' then [] :: (c :: d :: ds) :: fs
        else [] :: [c] :: [] :: (d :: ds) :: fs
      | _ => [] :: [c] :: rest
    else
      match rest with
      | f :: fs => (c :: f) :: fs
      | [] => [[c]]

/-- Python `str.lower()`. -/
def pyLower (w : String) : String := ⟨w.toList.map Char.toLower⟩

/-- Python `str.strip()`. -/
def pyStrip (w : String) : String :=
  ⟨((w.toList.dropWhile Char.isWhitespace).reverse.dropWhile
      Char.isWhitespace).reverse⟩

/-- Starts of the 66 runs of characters carrying a Unicode decimal value
(CPython's `unicodedata`; every run is the aligned block digit-0 ..
digit-9): ASCII 48, Arabic-Indic 1632, ..., fullwidth 65296, and so on.
`int()` parses exactly these characters, each contributing its offset
from its run start. -/
def decimalRangeStarts : List Nat :=
  [  48, 1632, 1776, 1984, 2406, 2534, 2662, 2790, 2918, 3046, 3174, 3302,
  3430, 3558, 3664, 3792, 3872, 4160, 4240, 6112, 6160, 6470, 6608, 6784,
  6800, 6992, 7088, 7232, 7248, 42528, 43216, 43264, 43472, 43504, 43600,
  44016, 65296, 66720, 68912, 69734, 69872, 69942, 70096, 70384, 70736,
  70864, 71248, 71360, 71472, 71904, 72016, 72784, 73040, 73120, 92768,
  92864, 93008, 120782, 120792, 120802, 120812, 120822, 123200, 123632,
  125264, 130032]

/-- Code points accepted by `str.isdigit()` although they carry no
decimal value (Unicode Numeric_Type=Digit: superscripts such as '²',
subscripts, circled digits, ...); `int()` raises ValueError on them. -/
def digitOnlyCodes : List Nat :=
  [  178, 179, 185, 4969, 4970, 4971, 4972, 4973, 4974, 4975, 4976, 4977, 6618,
  8304, 8308, 8309, 8310, 8311, 8312, 8313, 8320, 8321, 8322, 8323, 8324,
  8325, 8326, 8327, 8328, 8329, 9312, 9313, 9314, 9315, 9316, 9317, 9318,
  9319, 9320, 9332, 9333, 9334, 9335, 9336, 9337, 9338, 9339, 9340, 9352,
  9353, 9354, 9355, 9356, 9357, 9358, 9359, 9360, 9450, 9461, 9462, 9463,
  9464, 9465, 9466, 9467, 9468, 9469, 9471, 10102, 10103, 10104, 10105,
  10106, 10107, 10108, 10109, 10110, 10112, 10113, 10114, 10115, 10116,
  10117, 10118, 10119, 10120, 10122, 10123, 10124, 10125, 10126, 10127,
  10128, 10129, 10130, 68160, 68161, 68162, 68163, 69216, 69217, 69218,
  69219, 69220, 69221, 69222, 69223, 69224, 69714, 69715, 69716, 69717,
  69718, 69719, 69720, 69721, 69722, 127232, 127233, 127234, 127235, 127236,
  127237, 127238, 127239, 127240, 127241, 127242]

/-- The Unicode decimal value of a character, when it has one. -/
def pyCharDecimal (c : Char) : Option Nat :=
  (decimalRangeStarts.find? (fun s => s ≤ c.toNat && c.toNat ≤ s + 9)).map
    (fun s => c.toNat - s)

/-- The per-character test of Python `str.isdigit()`. -/
def pyIsdigitChar (c : Char) : Bool :=
  (pyCharDecimal c).isSome || digitOnlyCodes.contains c.toNat

/-- Python `str.isdigit()`: nonempty and every character a decimal digit
or a digit-only character. -/
def pyIsdigit (w : String) : Bool :=
  !w.toList.isEmpty && w.toList.all pyIsdigitChar

/-- Decimal value of an all-ASCII-digit string; `int()` agrees with this
on such strings. -/
def strToNat (w : String) : Nat :=
  w.toList.foldl (fun n c => n * 10 + (c.toNat - 48)) 0

/-- Python `int()` on the strings the scanner can yield as NUMBER tokens
(all `isdigit` characters, so no sign or whitespace handling is needed):
defined exactly when every character has a decimal value — so it parses
non-ASCII decimal digits such as '٠' — and ValueError (`none`) on
digit-only characters such as '²' and on the empty string. -/
def pyInt (w : String) : Option Nat :=
  if !w.toList.isEmpty && w.toList.all (fun c => (pyCharDecimal c).isSome)
  then
    some (w.toList.foldl (fun n c => n * 10 + (pyCharDecimal c).getD 0) 0)
  else none

/-- `Scanner.get_symbol_type`: classify a lower-cased, stripped, nonempty
fragment. -/
def get_symbol_type (w : String) : TokenKind :=
  if w = "clk" then .CLOCK
  else if w = "sw" then .SWITCH
  else if w = "and" then .AND
  else if w = "or" then .OR
  else if w = "nand" then .NAND
  else if w = "nor" then .NOR
  else if w = "dtype" then .DTYPE
  else if w = "xor" then .XOR
  else if w = "." then .DOT
  else if w = "," then .COMMA
  else if w = "(" then .OPEN
  else if w = ")" then .CLOSE
  else if w = " " then .WHITESPACE
  else if w = "=" then .EQUALS
  else if w = "" then .EOL
  else if w = "monitor" then .MONITOR
  else if pyIsdigit w then .NUMBER
  else .NAME

/-- The per-line loop of `symbol_gen`: for each fragment, lower-case and
strip it; a nonempty result is classified, interned and yielded at the
current column; the column advances by the raw fragment length; after all
fragments one EOL symbol is yielded at the final column. -/
def scanLineAux : List (List Char) → Nat → List PSym
  | [], loc => [⟨.EOL, none, some loc⟩]
  | w :: ws, loc =>
    let s := pyStrip (pyLower ⟨w⟩)
    (if s ≠ "" then [⟨get_symbol_type s, some s, some loc⟩] else [])
      ++ scanLineAux ws (loc + w.length)

/-- Symbols yielded for one source line (tokens then one EOL). -/
def scanLine (line : String) : List PSym :=
  scanLineAux (splitFragments line.toList) 0

/-- `symbol_gen`: the full symbol sequence of a source file — each line's
symbols in order, then exactly one EOF symbol. -/
def scan (lines : List String) : List PSym :=
  (lines.map scanLine).flatten ++ [⟨.EOF, none, none⟩]

/-- `Scanner.get_symbol` on the generator state (the not-yet-yielded
suffix): `none` models the StopIteration raised on an exhausted
generator. -/
def scanner_get_symbol (st : List PSym) : Option (PSym × List PSym) :=
  match st with
  | [] => none
  | x :: xs => some (x, xs)

/-- Device kinds, mirroring the constants of the external `Devices`
collaborator. -/
inductive DeviceKind where
  | AND | OR | NAND | NOR | XOR | CLOCK | SWITCH | D_TYPE
deriving DecidableEq, Repr

/-- A call made by the parser into an external builder, with its
arguments; identifiers are the interned strings (`none` mirrors a Python
`None` argument). -/
inductive Call where
  | make_gate (device_kind : DeviceKind) (device_id : Option String)
      (no_of_inputs : Nat)
  | make_clock (device_id : Option String) (clock_half_period : Nat)
  | make_switch (device_id : Option String) (initial_state : Nat)
  | make_dtype (device_id : Option String)
  | make_monitor (device_id : Option String) (output_id : Option String)
  | make_connection (first_device : Option String)
      (first_port : Option String) (second_device : Option String)
      (second_port : Option String)
deriving DecidableEq, Repr

/-- Status codes returned by the external monitor registry's
`make_monitor` (the closed set the parser distinguishes). -/
inductive MonitorStatus where
  | NO_ERROR | DEVICE_ABSENT | NOT_OUTPUT | MONITOR_PRESENT
deriving DecidableEq, Repr

/-- Status codes returned by the external network builder's
`make_connection`; the parser only distinguishes `NO_ERROR` from the
rest. -/
inductive NetStatus where
  | NO_ERROR | DEVICE_ABSENT | OTHER_ERROR
deriving DecidableEq, Repr

/-- The responses of the external monitor/network collaborators, as
functions of the builder calls made so far and the call's arguments. -/
structure Env where
  monitor_status : List Call → Option String → Option String → MonitorStatus
  connection_status : List Call → Option String → Option String →
    Option String → Option String → NetStatus

/-- `ParsingError`: message plus the optional offending symbol (Python's
`sym=None` default is `none`). -/
structure ParsingError where
  message : String
  sym : Option PSym
deriving DecidableEq, Repr

/-- Parser state: the not-yet-consumed symbol stream, the sequence of
builder calls made so far, and the `line_count` diagnostic counter. -/
structure PState where
  stream : List PSym
  trace : List Call
  line_count : Nat
deriving DecidableEq, Repr

/-- Outcome of a parsing step: normal return, a raised `ParsingError`, or
a non-`ParsingError` Python exception escaping every handler
(StopIteration / IndexError / ValueError). -/
inductive PResult (α : Type) where
  | ok (a : α) (s : PState)
  | err (e : ParsingError) (s : PState)
  | crash (s : PState)
deriving DecidableEq, Repr

/-- Sequencing: exceptions propagate. -/
def PResult.bind {α β : Type} : PResult α → (α → PState → PResult β) →
    PResult β
  | .ok a s, f => f a s
  | .err e s, _ => .err e s
  | .crash s, _ => .crash s

/-- `self.__scanner.get_symbol()` as seen from the parser: pull the next
symbol; an exhausted stream raises StopIteration, which no parser handler
catches. -/
def get_symbol (s : PState) : PResult PSym :=
  match s.stream with
  | [] => .crash s
  | x :: xs => .ok x { s with stream := xs }

/-- `Parser._parse_identifier`. -/
def _parse_identifier (s : PState) : PResult (Option String) :=
  (get_symbol s).bind fun sym s1 =>
    if sym.type = .NAME then .ok sym.id s1
    else .err ⟨"Expecting user-defined name", some sym⟩ s1

/-- `Parser._parse_open_bracket`. -/
def _parse_open_bracket (s : PState) : PResult Unit :=
  (get_symbol s).bind fun sym s1 =>
    if sym.type = .OPEN then .ok () s1
    else .err ⟨"Expecting open bracket", some sym⟩ s1

/-- `Parser._parse_close_bracket`. -/
def _parse_close_bracket (s : PState) : PResult Unit :=
  (get_symbol s).bind fun sym s1 =>
    if sym.type = .CLOSE then .ok () s1
    else .err ⟨"Expecting close bracket", some sym⟩ s1

/-- `Parser._parse_dot`. -/
def _parse_dot (s : PState) : PResult Unit :=
  (get_symbol s).bind fun sym s1 =>
    if sym.type = .DOT then .ok () s1
    else .err ⟨"Expecting '.'", some sym⟩ s1

/-- Modelled from the spec: `devices.get_device(id)` of the external
device registry (`devices.py` is not part of this repository's sources).
Per §6 the registry is populated by the `make_gate`/`make_clock`/
`make_switch`/`make_dtype` calls issued so far and exposes the device's
kind; a device never declared is absent. -/
def get_device (trace : List Call) (id : Option String) :
    Option DeviceKind :=
  match trace with
  | [] => none
  | c :: rest =>
    match c with
    | .make_gate k d _ => if d = id then some k else get_device rest id
    | .make_clock d _ => if d = id then some .CLOCK else get_device rest id
    | .make_switch d _ => if d = id then some .SWITCH else get_device rest id
    | .make_dtype d => if d = id then some .D_TYPE else get_device rest id
    | _ => get_device rest id

/-- `Parser._parse_output`: identifier, registry lookup ("Undeclared
device" is raised with no symbol), and a `.port` suffix required exactly
for D-type devices. -/
def _parse_output (s : PState) :
    PResult (Option String × Option String) :=
  (_parse_identifier s).bind fun device_id s1 =>
    match get_device s1.trace device_id with
    | none => .err ⟨"Undeclared device", none⟩ s1
    | some kind =>
      if kind = .D_TYPE then
        (_parse_dot s1).bind fun _ s2 =>
        (_parse_identifier s2).bind fun port_id s3 =>
        .ok (device_id, port_id) s3
      else .ok (device_id, none) s1

/-- `Parser._parse_gate`: identifier; for XOR no parentheses and a fixed
input count of 2; otherwise `(`, the count literal check (non-NUMBER or
leading ASCII `'0'` → "Expecting a number > 0"; `int()` result outside
[1,16] → "Expecting a number from 1-16"), `)`; then the `make_gate`
call.  `number[0]` on an empty literal (IndexError) and `int()` on a
literal with a non-decimal character (ValueError) escape the local
handler, since `InvalidNoOfInputs` catches only its own instances. -/
def _parse_gate (device_kind : DeviceKind) (s : PState) : PResult Unit :=
  (_parse_identifier s).bind fun device_id s1 =>
    if device_kind = .XOR then
      .ok () { s1 with
        trace := s1.trace ++ [.make_gate device_kind device_id 2] }
    else
      (_parse_open_bracket s1).bind fun _ s2 =>
      (get_symbol s2).bind fun sym s3 =>
        if sym.type ≠ .NUMBER then
          .err ⟨"Expecting a number > 0", some sym⟩ s3
        else
          match sym.id with
          | none => .crash s3
          | some number =>
            match number.toList with
            | [] => .crash s3
            | c :: _ =>
              if c = '0' then .err ⟨"Expecting a number > 0", some sym⟩ s3
              else
                match pyInt number with
                | none => .crash s3
                | some no_of_inputs =>
                  if no_of_inputs > 16 ∨ no_of_inputs < 1 then
                    .err ⟨"Expecting a number from 1-16", some sym⟩ s3
                  else
                    (_parse_close_bracket s3).bind fun _ s4 =>
                    .ok () { s4 with trace := s4.trace ++
                      [.make_gate device_kind device_id no_of_inputs] }

/-- The `multiple` decorator's comma loop: after the first instance,
repeatedly fetch a symbol — EOL ends the list, a non-comma fails with
"Expecting ','", a comma parses another instance.  The fuel argument only
bounds the recursion; each iteration consumes at least one symbol, so
`stream.length + 1` units never run out before the loop's own exit. -/
def multipleAux (body : PState → PResult Unit) :
    Nat → PState → PResult Unit
  | 0, s => .crash s
  | fuel + 1, s =>
    (get_symbol s).bind fun sym s1 =>
      if sym.type = .EOL then .ok () s1
      else if sym.type ≠ .COMMA then .err ⟨"Expecting ','", some sym⟩ s1
      else (body s1).bind fun _ s2 => multipleAux body fuel s2

/-- `Parser.multiple`: parse one statement body, then the comma loop. -/
def multiple (body : PState → PResult Unit) (s : PState) : PResult Unit :=
  (body s).bind fun _ s1 => multipleAux body (s1.stream.length + 1) s1

/-- `Parser._parse_CLOCK` body: identifier, `(`, half-period literal
(non-NUMBER, leading ASCII `'0'`, or `int()` value < 1 → "Expecting a
number > 0"), `)`, then `make_clock`.  As in the gate rule, IndexError
on an empty literal and ValueError from `int()` on a non-decimal
character escape the local handler; a non-ASCII decimal digit such as
'٠' passes the `name_string[0] == "0"` comparison yet parses to 0. -/
def _parse_CLOCK_body (s : PState) : PResult Unit :=
  (_parse_identifier s).bind fun device_id s1 =>
    (_parse_open_bracket s1).bind fun _ s2 =>
    (get_symbol s2).bind fun sym s3 =>
      if sym.type ≠ .NUMBER then
        .err ⟨"Expecting a number > 0", some sym⟩ s3
      else
        match sym.id with
        | none => .crash s3
        | some name_string =>
          match name_string.toList with
          | [] => .crash s3
          | c :: _ =>
            if c = '0' then .err ⟨"Expecting a number > 0", some sym⟩ s3
            else
              match pyInt name_string with
              | none => .crash s3
              | some clock_half_period =>
                if clock_half_period < 1 then
                  .err ⟨"Expecting a number > 0", some sym⟩ s3
                else
                  (_parse_close_bracket s3).bind fun _ s4 =>
                  .ok () { s4 with trace := s4.trace ++
                    [.make_clock device_id clock_half_period] }

/-- `Parser._parse_SWITCH` body: identifier, `(`, initial-state literal
(non-NUMBER or `int()` value not in {0, 1} → "Expecting 0 or 1"; note the
full integer parse with no leading-zero rejection), `)`, then
`make_switch`.  `int()` on a literal with a non-decimal character — such
as the digit-only '²', which `isdigit()` accepts — raises a plain
ValueError that `except InvalidState` does not catch, so it escapes
every handler. -/
def _parse_SWITCH_body (s : PState) : PResult Unit :=
  (_parse_identifier s).bind fun device_id s1 =>
    (_parse_open_bracket s1).bind fun _ s2 =>
    (get_symbol s2).bind fun sym s3 =>
      if sym.type ≠ .NUMBER then .err ⟨"Expecting 0 or 1", some sym⟩ s3
      else
        match sym.id with
        | none => .crash s3
        | some w =>
          match pyInt w with
          | none => .crash s3
          | some initial_state =>
            if initial_state ∉ [0, 1] then
              .err ⟨"Expecting 0 or 1", some sym⟩ s3
            else
              (_parse_close_bracket s3).bind fun _ s4 =>
              .ok () { s4 with trace := s4.trace ++
                [.make_switch device_id initial_state] }

/-- `Parser._parse_DTYPE` body: identifier, then `make_dtype`. -/
def _parse_DTYPE_body (s : PState) : PResult Unit :=
  (_parse_identifier s).bind fun device_id s1 =>
    .ok () { s1 with trace := s1.trace ++ [.make_dtype device_id] }

/-- `Parser._parse_monitor` body: parse an output reference, call
`make_monitor`, and map the returned status (the three error statuses
raise with no symbol; anything else succeeds). -/
def _parse_monitor_body (env : Env) (s : PState) : PResult Unit :=
  (_parse_output s).bind fun ids s1 =>
    let error_code := env.monitor_status s1.trace ids.1 ids.2
    let s2 := { s1 with trace := s1.trace ++ [.make_monitor ids.1 ids.2] }
    match error_code with
    | .DEVICE_ABSENT => .err ⟨"Undeclared device", none⟩ s2
    | .NOT_OUTPUT => .err ⟨"Not monitoring output", none⟩ s2
    | .MONITOR_PRESENT => .err ⟨"Monitor present", none⟩ s2
    | .NO_ERROR => .ok () s2

/-- `make_connection` and the mapping of any non-`NO_ERROR` status to the
"Network error" diagnostic (raised with no symbol). -/
def finish_connection (env : Env) (a0 a1 a2 a3 : Option String)
    (s : PState) : PResult Unit :=
  let error_code := env.connection_status s.trace a0 a1 a2 a3
  let s1 := { s with trace := s.trace ++ [.make_connection a0 a1 a2 a3] }
  if error_code ≠ .NO_ERROR then .err ⟨"Network error", none⟩ s1
  else .ok () s1

/-- The local `parse_right` of `Parser._parse_connection`: second device
identifier; then EOL ends the statement, a non-dot fails with
"Expecting '.'", and a dot is followed by the second port identifier and
a required EOL ("Expecting EOL" otherwise). -/
def parse_right (env : Env) (a0 a1 : Option String) (s : PState) :
    PResult Unit :=
  (_parse_identifier s).bind fun a2 s1 =>
  (get_symbol s1).bind fun sym s2 =>
    if sym.type = .EOL then finish_connection env a0 a1 a2 none s2
    else if sym.type ≠ .DOT then .err ⟨"Expecting '.'", some sym⟩ s2
    else
      (_parse_identifier s2).bind fun a3 s3 =>
      (get_symbol s3).bind fun sym2 s4 =>
        if sym2.type ≠ .EOL then .err ⟨"Expecting EOL", some sym2⟩ s4
        else finish_connection env a0 a1 a2 a3 s4

/-- `Parser._parse_connection`: after the leading first-device name,
either `=` directly, or `.`, a port name, and `=`; then the right-hand
side. -/
def _parse_connection (env : Env) (first : PSym) (s : PState) :
    PResult Unit :=
  (get_symbol s).bind fun sym s1 =>
    if sym.type = .EQUALS then parse_right env first.id none s1
    else if sym.type = .DOT then
      (get_symbol s1).bind fun sym2 s2 =>
        if sym2.type ≠ .NAME then
          .err ⟨"Expecting port name", some sym2⟩ s2
        else
          (get_symbol s2).bind fun sym3 s3 =>
            if sym3.type ≠ .EQUALS then
              .err ⟨"Expecting '='", some sym3⟩ s3
            else parse_right env first.id sym2.id s3
    else .err ⟨"Expecting . or =", some sym⟩ s1

/-- `Parser._parse_AND` (the `multiple`-wrapped gate rule). -/
def _parse_AND : PState → PResult Unit := multiple (_parse_gate .AND)

/-- `Parser._parse_OR`. -/
def _parse_OR : PState → PResult Unit := multiple (_parse_gate .OR)

/-- `Parser._parse_NAND`. -/
def _parse_NAND : PState → PResult Unit := multiple (_parse_gate .NAND)

/-- `Parser._parse_NOR`. -/
def _parse_NOR : PState → PResult Unit := multiple (_parse_gate .NOR)

/-- `Parser._parse_XOR`. -/
def _parse_XOR : PState → PResult Unit := multiple (_parse_gate .XOR)

/-- `Parser._parse_CLOCK` (wrapped). -/
def _parse_CLOCK : PState → PResult Unit := multiple _parse_CLOCK_body

/-- `Parser._parse_SWITCH` (wrapped). -/
def _parse_SWITCH : PState → PResult Unit := multiple _parse_SWITCH_body

/-- `Parser._parse_DTYPE` (wrapped). -/
def _parse_DTYPE : PState → PResult Unit := multiple _parse_DTYPE_body

/-- `Parser._parse_monitor` (wrapped). -/
def _parse_monitor (env : Env) : PState → PResult Unit :=
  multiple (_parse_monitor_body env)

/-- The `while True` loop of `Parser.parse_network`: fetch a symbol,
stop at EOF, dispatch by kind (a kind with no branch is skipped), then
increment `line_count` and continue.  The fuel argument only bounds the
recursion; each iteration consumes at least the fetched symbol, so
`stream.length + 1` units never run out before EOF or an error. -/
def parseLoop (env : Env) : Nat → PState → PResult Unit
  | 0, s => .crash s
  | fuel + 1, s =>
    (get_symbol s).bind fun sym s1 =>
      if sym.type = .EOF then .ok () s1
      else
        let step : PResult Unit :=
          if sym.type = .AND then _parse_AND s1
          else if sym.type = .NAND then _parse_NAND s1
          else if sym.type = .OR then _parse_OR s1
          else if sym.type = .NOR then _parse_NOR s1
          else if sym.type = .XOR then _parse_XOR s1
          else if sym.type = .CLOCK then _parse_CLOCK s1
          else if sym.type = .DTYPE then _parse_DTYPE s1
          else if sym.type = .SWITCH then _parse_SWITCH s1
          else if sym.type = .MONITOR then _parse_monitor env s1
          else if sym.type = .NAME then _parse_connection env sym s1
          else .ok () s1
        step.bind fun _ s2 =>
          parseLoop env fuel { s2 with line_count := s2.line_count + 1 }

/-- `Parser.parse_network` on the symbol stream of the given source
lines, starting with no builder calls and `line_count = 1`. -/
def parse_network (env : Env) (lines : List String) : PResult Unit :=
  let tokens := scan lines
  parseLoop env (tokens.length + 1) ⟨tokens, [], 1⟩

/-- The boolean `parse_network` returns: `true` on normal completion,
`false` on a `ParsingError`; `none` when an exception escapes. -/
def parse_bool : PResult Unit → Option Bool
  | .ok _ _ => some true
  | .err _ _ => some false
  | .crash _ => none

/-- The builder calls recorded in an outcome's final state. -/
def resultTrace : PResult Unit → List Call
  | .ok _ s => s.trace
  | .err _ s => s.trace
  | .crash s => s.trace

/-- The `ParsingError` of a failed outcome, if any. -/
def resultError : PResult Unit → Option ParsingError
  | .err e _ => some e
  | _ => none

/-- A collaborator environment whose monitor and network builders always
succeed. -/
def envDefault : Env :=
  ⟨fun _ _ _ => .NO_ERROR, fun _ _ _ _ _ => .NO_ERROR⟩

/-! ## Scanner stream lemmas -/

theorem get_symbol_type_ne_EOL_EOF (w : String) (hw : w ≠ "") :
    get_symbol_type w ≠ .EOL ∧ get_symbol_type w ≠ .EOF := by
  unfold get_symbol_type
  by_cases h1 : w = "clk"
  · rw [if_pos h1]; exact ⟨by decide, by decide⟩
  rw [if_neg h1]
  by_cases h2 : w = "sw"
  · rw [if_pos h2]; exact ⟨by decide, by decide⟩
  rw [if_neg h2]
  by_cases h3 : w = "and"
  · rw [if_pos h3]; exact ⟨by decide, by decide⟩
  rw [if_neg h3]
  by_cases h4 : w = "or"
  · rw [if_pos h4]; exact ⟨by decide, by decide⟩
  rw [if_neg h4]
  by_cases h5 : w = "nand"
  · rw [if_pos h5]; exact ⟨by decide, by decide⟩
  rw [if_neg h5]
  by_cases h6 : w = "nor"
  · rw [if_pos h6]; exact ⟨by decide, by decide⟩
  rw [if_neg h6]
  by_cases h7 : w = "dtype"
  · rw [if_pos h7]; exact ⟨by decide, by decide⟩
  rw [if_neg h7]
  by_cases h8 : w = "xor"
  · rw [if_pos h8]; exact ⟨by decide, by decide⟩
  rw [if_neg h8]
  by_cases h9 : w = "."
  · rw [if_pos h9]; exact ⟨by decide, by decide⟩
  rw [if_neg h9]
  by_cases h10 : w = ","
  · rw [if_pos h10]; exact ⟨by decide, by decide⟩
  rw [if_neg h10]
  by_cases h11 : w = "("
  · rw [if_pos h11]; exact ⟨by decide, by decide⟩
  rw [if_neg h11]
  by_cases h12 : w = ")"
  · rw [if_pos h12]; exact ⟨by decide, by decide⟩
  rw [if_neg h12]
  by_cases h13 : w = " "
  · rw [if_pos h13]; exact ⟨by decide, by decide⟩
  rw [if_neg h13]
  by_cases h14 : w = "="
  · rw [if_pos h14]; exact ⟨by decide, by decide⟩
  rw [if_neg h14]
  rw [if_neg hw]
  by_cases h16 : w = "monitor"
  · rw [if_pos h16]; exact ⟨by decide, by decide⟩
  rw [if_neg h16]
  by_cases h17 : pyIsdigit w = true
  · rw [if_pos h17]; exact ⟨by decide, by decide⟩
  rw [if_neg h17]; exact ⟨by decide, by decide⟩

/-- Each line's symbol list is some EOL-free, EOF-free tokens followed by
exactly one EOL. -/
theorem scanLineAux_shape (ws : List (List Char)) (loc : Nat) :
    ∃ ts l, scanLineAux ws loc = ts ++ [⟨.EOL, none, some l⟩] ∧
      ∀ x ∈ ts, x.type ≠ .EOL ∧ x.type ≠ .EOF := by
  induction ws generalizing loc with
  | nil => exact ⟨[], loc, rfl, by simp⟩
  | cons w ws ih =>
    obtain ⟨ts, l, heq, hts⟩ := ih (loc + w.length)
    by_cases hs : pyStrip (pyLower ⟨w⟩) = ""
    · exact ⟨ts, l, by simp [scanLineAux, hs, heq], hts⟩
    · refine ⟨⟨get_symbol_type (pyStrip (pyLower ⟨w⟩)),
        some (pyStrip (pyLower ⟨w⟩)), some loc⟩
        :: ts, l, by simp [scanLineAux, hs, heq], ?_⟩
      intro x hx
      rcases List.mem_cons.1 hx with hx | hx
      · subst hx
        exact get_symbol_type_ne_EOL_EOF _ hs
      · exact hts x hx

theorem scanLine_countP_EOL (line : String) :
    (scanLine line).countP (fun x => x.type == .EOL) = 1 := by
  obtain ⟨ts, l, heq, hts⟩ := scanLineAux_shape (splitFragments line.toList) 0
  rw [scanLine, heq, List.countP_append]
  have : ts.countP (fun x => x.type == .EOL) = 0 := by
    rw [List.countP_eq_zero]
    intro x hx
    simpa using (hts x hx).1
  simp [this, List.countP_cons]

theorem scanLine_no_EOF (line : String) (x : PSym) (hx : x ∈ scanLine line) :
    x.type ≠ .EOF := by
  obtain ⟨ts, l, heq, hts⟩ := scanLineAux_shape (splitFragments line.toList) 0
  rw [scanLine, heq] at hx
  rcases List.mem_append.1 hx with hx | hx
  · exact (hts x hx).2
  · simp at hx
    simp [hx]

theorem scan_cons (l : String) (ls : List String) :
    scan (l :: ls) = scanLine l ++ scan ls := by
  simp [scan]

theorem scan_countP_EOL (lines : List String) :
    (scan lines).countP (fun x => x.type == .EOL) = lines.length := by
  induction lines with
  | nil => rfl
  | cons l ls ih =>
    rw [scan_cons, List.countP_append, ih, scanLine_countP_EOL,
      List.length_cons]
    omega

theorem scan_countP_EOF (lines : List String) :
    (scan lines).countP (fun x => x.type == .EOF) = 1 := by
  induction lines with
  | nil => rfl
  | cons l ls ih =>
    rw [scan_cons, List.countP_append, ih]
    have : (scanLine l).countP (fun x => x.type == .EOF) = 0 := by
      rw [List.countP_eq_zero]
      intro x hx
      simpa using scanLine_no_EOF l x hx
    simp [this]

theorem scan_getLast (lines : List String) :
    (scan lines).getLast? = some ⟨.EOF, none, none⟩ :=
  List.getLast?_concat _

/-- C4: the symbol sequence of a source file is finite (it is a list),
contains exactly one EOL symbol per physical line, a blank line yields
exactly one EOL symbol and nothing else, and the sequence ends in an EOF
symbol that occurs exactly once. -/
theorem symbol_stream_invariant (lines : List String) :
    (scan lines).countP (fun x => x.type == .EOL) = lines.length ∧
    (scan lines).countP (fun x => x.type == .EOF) = 1 ∧
    (scan lines).getLast? = some ⟨.EOF, none, none⟩ ∧
    scanLine "" = [⟨.EOL, none, some 0⟩] :=
  ⟨scan_countP_EOL lines, scan_countP_EOF lines, scan_getLast lines, rfl⟩

/-- C9: once the EOF symbol has been yielded, the generator is exhausted —
there is nothing after EOF in the stream, and the next `get_symbol` call
raises StopIteration (`none`), not another EOF or an arbitrary value. -/
theorem get_symbol_after_eof (lines : List String) (pre : List PSym)
    (e : PSym) (post : List PSym)
    (hsplit : scan lines = pre ++ e :: post) (he : e.type = .EOF) :
    post = [] ∧ scanner_get_symbol post = none := by
  have hcount : (scan lines).countP (fun x => x.type == .EOF) = 1 :=
    scan_countP_EOF lines
  have hlast : (scan lines).getLast? = some ⟨.EOF, none, none⟩ :=
    scan_getLast lines
  rw [hsplit] at hcount hlast
  rw [List.countP_append, List.countP_cons] at hcount
  simp [he] at hcount
  have hpost0 : post.countP (fun x => x.type == .EOF) = 0 := by omega
  have hpost : post = [] := by
    cases post with
    | nil => rfl
    | cons y ys =>
      exfalso
      rw [List.getLast?_append_of_ne_nil _ (by simp),
        List.getLast?_cons_cons] at hlast
      have hm : (⟨.EOF, none, none⟩ : PSym) ∈ (y :: ys).getLast? := by
        rw [hlast]; rfl
      obtain ⟨hne, hx⟩ := List.mem_getLast?_eq_getLast hm
      have hmem : (⟨.EOF, none, none⟩ : PSym) ∈ y :: ys := by
        rw [hx]; exact List.getLast_mem hne
      have := (List.countP_eq_zero.1 hpost0) _ hmem
      simp at this
  exact ⟨hpost, by rw [hpost]; rfl⟩

theorem get_symbol_after_eof_witness :
    ([] : List PSym) = [] ∧ scanner_get_symbol [] = none :=
  get_symbol_after_eof [] [] ⟨.EOF, none, none⟩ [] rfl rfl

/-! ## Parser claims -/

/-- C1 counterexample: on `monitor a.q` with `a` never declared, the parse
fails with "Undeclared device" and halts with no builder call made, but
the error carries no symbol (`sym = none`), so it is not located at the
column of `a` — the claimed caret column does not exist. -/
theorem monitor_undeclared_no_caret :
    resultError (parse_network envDefault ["monitor a.q"]) =
      some ⟨"Undeclared device", none⟩ ∧
    parse_bool (parse_network envDefault ["monitor a.q"]) = some false ∧
    resultError (parse_network envDefault ["monitor a.q"]) ≠
      some ⟨"Undeclared device", some ⟨.NAME, some "a", some 8⟩⟩ ∧
    resultTrace (parse_network envDefault ["monitor a.q"]) = [] := by
  refine ⟨rfl, rfl, ?_, rfl⟩
  decide

/-- C1 (amended): a monitor statement naming a device the registry
reports absent fails with "Undeclared device" carrying no symbol (hence
no caret column), and parsing halts immediately: whatever statements
follow, the parse returns the error with no builder call made. -/
theorem monitor_undeclared_aborts :
    (∀ (tr : List Call) (lc : Nat) (sym : PSym) (rest : List PSym),
      sym.type = .NAME → get_device tr sym.id = none →
      _parse_output ⟨sym :: rest, tr, lc⟩ =
        .err ⟨"Undeclared device", none⟩ ⟨rest, tr, lc⟩) ∧
    (∀ (env : Env) (rest : List String),
      parse_network env ("monitor a.q" :: rest) =
        .err ⟨"Undeclared device", none⟩
          ⟨⟨.DOT, some ".", some 9⟩ :: ⟨.NAME, some "q", some 10⟩ ::
            ⟨.EOL, none, some 11⟩ :: ((rest.map scanLine).flatten ++
            [⟨.EOF, none, none⟩]), [], 1⟩) := by
  constructor
  · intro tr lc sym rest hty hdev
    simp [_parse_output, _parse_identifier, get_symbol, PResult.bind, hty,
      hdev]
  · intro env rest
    rfl

theorem monitor_undeclared_aborts_witness :
    _parse_output ⟨[⟨.NAME, some "a", some 8⟩], [], 1⟩ =
      .err ⟨"Undeclared device", none⟩ ⟨[], [], 1⟩ :=
  monitor_undeclared_aborts.1 [] 1 ⟨.NAME, some "a", some 8⟩ [] rfl rfl

/-- C3: the first failing check aborts the whole parse — an error from a
statement body makes the `multiple` combinator return that error without
parsing further items — and on `and a(2), b(abc)` the parse fails with
"Expecting a number > 0" at column 12 (the column of `abc`), returns
false, and the device builder received the `make_gate` call for `a` but
none for `b`. -/
theorem first_error_aborts :
    (∀ (body : PState → PResult Unit) (s : PState) (e : ParsingError)
        (st : PState), body s = .err e st → multiple body s = .err e st) ∧
    (∀ env : Env,
      parse_network env ["and a(2), b(abc)"] =
        .err ⟨"Expecting a number > 0", some ⟨.NAME, some "abc", some 12⟩⟩
          ⟨[⟨.CLOSE, some ")", some 15⟩, ⟨.EOL, none, some 16⟩,
            ⟨.EOF, none, none⟩], [.make_gate .AND (some "a") 2], 1⟩ ∧
      parse_bool (parse_network env ["and a(2), b(abc)"]) = some false ∧
      resultTrace (parse_network env ["and a(2), b(abc)"]) =
        [.make_gate .AND (some "a") 2]) := by
  constructor
  · intro body s e st hb
    rw [multiple, hb]
    rfl
  · intro env
    exact ⟨rfl, rfl, rfl⟩

theorem first_error_aborts_witness :
    multiple (_parse_gate .AND) ⟨[⟨.EOL, none, some 0⟩], [], 1⟩ =
      .err ⟨"Expecting user-defined name", some ⟨.EOL, none, some 0⟩⟩
        ⟨[], [], 1⟩ :=
  first_error_aborts.1 (_parse_gate .AND) ⟨[⟨.EOL, none, some 0⟩], [], 1⟩
    ⟨"Expecting user-defined name", some ⟨.EOL, none, some 0⟩⟩ ⟨[], [], 1⟩ rfl

/-- C7: a leading symbol whose kind matches no statement branch — stray
punctuation, a NUMBER, an EOL, or the never-produced WHITESPACE/INVALID
kinds — is silently skipped by the top-level loop, which moves on to the
next symbol (incrementing only the line counter). -/
theorem top_loop_skips_unrecognized (env : Env) (fuel : Nat) (sym : PSym)
    (rest : List PSym) (tr : List Call) (lc : Nat)
    (h : sym.type ∈ [TokenKind.DOT, .COMMA, .OPEN, .CLOSE, .WHITESPACE,
      .EQUALS, .NUMBER, .INVALID, .EOL]) :
    parseLoop env (fuel + 1) ⟨sym :: rest, tr, lc⟩ =
      parseLoop env fuel ⟨rest, tr, lc + 1⟩ := by
  simp only [List.mem_cons, List.not_mem_nil, or_false] at h
  rcases h with h | h | h | h | h | h | h | h | h <;>
    simp [parseLoop, get_symbol, PResult.bind, h]

theorem top_loop_skips_unrecognized_witness :
    parseLoop envDefault 1 ⟨[⟨.COMMA, some ",", some 0⟩], [], 1⟩ =
      parseLoop envDefault 0 ⟨[], [], 2⟩ :=
  top_loop_skips_unrecognized envDefault 0 ⟨.COMMA, some ",", some 0⟩ [] [] 1
    (by simp)

/-- ASCII digits sit in the first decimal range, at offset
`toNat - 48`. -/
theorem pyCharDecimal_ascii (c : Char) (h : c.isDigit = true) :
    pyCharDecimal c = some (c.toNat - 48) := by
  have h48 : 48 ≤ c.toNat ∧ c.toNat ≤ 57 := by
    simpa [Char.isDigit] using h
  unfold pyCharDecimal decimalRangeStarts
  rw [List.find?_cons_of_pos]
  · rfl
  · simp only [Bool.and_eq_true, decide_eq_true_eq]
    omega

/-- On all-ASCII-digit character lists the `int()` fold agrees with the
`strToNat` fold. -/
theorem foldl_decimal_ascii (l : List Char) :
    l.all Char.isDigit = true → ∀ n : Nat,
      l.foldl (fun n c => n * 10 + (pyCharDecimal c).getD 0) n =
        l.foldl (fun n c => n * 10 + (c.toNat - 48)) n := by
  induction l with
  | nil => intro _ n; rfl
  | cons x xs ih =>
    intro hd n
    rw [List.all_cons, Bool.and_eq_true] at hd
    simp only [List.foldl_cons]
    rw [pyCharDecimal_ascii x hd.1, Option.getD_some]
    exact ih hd.2 _

/-- On nonempty all-ASCII-digit strings `int()` succeeds and agrees with
`strToNat`. -/
theorem pyInt_ascii (w : String) (hne : w.toList.isEmpty = false)
    (hd : w.toList.all Char.isDigit = true) :
    pyInt w = some (strToNat w) := by
  have hall : w.toList.all (fun c => (pyCharDecimal c).isSome) = true := by
    rw [List.all_eq_true] at hd ⊢
    intro c hc
    rw [pyCharDecimal_ascii c (hd c hc)]
    rfl
  have hcond : (!w.toList.isEmpty &&
      w.toList.all fun c => (pyCharDecimal c).isSome) = true := by
    rw [hne, hall]
    rfl
  unfold pyInt strToNat
  rw [if_pos hcond, foldl_decimal_ascii w.toList hd 0]

/-- C2: for a non-XOR gate declaration, the parenthesized count token is
validated exactly as claimed: a non-NUMBER token or a literal starting
with '0' fails with "Expecting a number > 0" at that symbol; a no-leading-
zero all-digit literal whose integer value is outside [1,16] fails with
"Expecting a number from 1-16" at that symbol; a value in [1,16] is
forwarded unchanged in the `make_gate` call. -/
theorem gate_count_validation (device_kind : DeviceKind)
    (a o s : PSym) (tr : List Call) (lc : Nat)
    (hk : device_kind ≠ .XOR) (ha : a.type = .NAME) (ho : o.type = .OPEN) :
    (∀ rest : List PSym, s.type ≠ .NUMBER →
      _parse_gate device_kind ⟨a :: o :: s :: rest, tr, lc⟩ =
        .err ⟨"Expecting a number > 0", some s⟩ ⟨rest, tr, lc⟩) ∧
    (∀ (rest : List PSym) (w : String) (t : List Char),
      s.type = .NUMBER → s.id = some w → w.toList = '0' :: t →
      _parse_gate device_kind ⟨a :: o :: s :: rest, tr, lc⟩ =
        .err ⟨"Expecting a number > 0", some s⟩ ⟨rest, tr, lc⟩) ∧
    (∀ (rest : List PSym) (w : String) (c : Char) (t : List Char),
      s.type = .NUMBER → s.id = some w → w.toList = c :: t → c ≠ '0' →
      w.toList.all Char.isDigit → (strToNat w < 1 ∨ strToNat w > 16) →
      _parse_gate device_kind ⟨a :: o :: s :: rest, tr, lc⟩ =
        .err ⟨"Expecting a number from 1-16", some s⟩ ⟨rest, tr, lc⟩) ∧
    (∀ (cl : PSym) (rest : List PSym) (w : String) (c : Char) (t : List Char),
      s.type = .NUMBER → s.id = some w → w.toList = c :: t → c ≠ '0' →
      w.toList.all Char.isDigit → 1 ≤ strToNat w → strToNat w ≤ 16 →
      cl.type = .CLOSE →
      _parse_gate device_kind ⟨a :: o :: s :: cl :: rest, tr, lc⟩ =
        .ok () ⟨rest, tr ++ [.make_gate device_kind a.id (strToNat w)], lc⟩) := by
  refine ⟨?_, ?_, ?_, ?_⟩
  · intro rest hnum
    simp [_parse_gate, _parse_identifier, _parse_open_bracket, get_symbol,
      PResult.bind, ha, ho, hk, hnum]
  · intro rest w t hnum hid hw
    have hw' : w.data = '0' :: t := hw
    simp [_parse_gate, _parse_identifier, _parse_open_bracket, get_symbol,
      PResult.bind, ha, ho, hk, hnum, hid, hw']
  · intro rest w c t hnum hid hw hc hd hrange
    have hw' : w.data = c :: t := hw
    have hne : w.toList.isEmpty = false := by rw [hw]; rfl
    have hpy : pyInt w = some (strToNat w) := pyInt_ascii w hne hd
    have hor : 16 < strToNat w ∨ strToNat w = 0 := by omega
    simp [_parse_gate, _parse_identifier, _parse_open_bracket, get_symbol,
      PResult.bind, ha, ho, hk, hnum, hid, hw', hc, hpy, hor]
  · intro cl rest w c t hnum hid hw hc hd h1 h16 hcl
    have hw' : w.data = c :: t := hw
    have hne : w.toList.isEmpty = false := by rw [hw]; rfl
    have hpy : pyInt w = some (strToNat w) := pyInt_ascii w hne hd
    have hnr : ¬ (16 < strToNat w ∨ strToNat w = 0) := by omega
    simp [_parse_gate, _parse_identifier, _parse_open_bracket,
      _parse_close_bracket, get_symbol, PResult.bind, ha, ho, hk, hnum, hid,
      hw', hc, hpy, hnr, hcl]

/-- C6 counterexample: on `sw a(²)` the scanner classifies '²' as a
NUMBER token (`str.isdigit` is true for it), but `int()` raises a plain
ValueError that `except InvalidState` (a subclass of ValueError) does
not catch, so the parse crashes with an uncaught exception instead of
failing with "Expecting 0 or 1" at that symbol. -/
theorem switch_unicode_digit_crash :
    get_symbol_type "²" = .NUMBER ∧
    pyInt "²" = none ∧
    parse_network envDefault ["sw a(²)"] =
      .crash ⟨[⟨.CLOSE, some ")", some 6⟩, ⟨.EOL, none, some 7⟩,
        ⟨.EOF, none, none⟩], [], 1⟩ ∧
    resultError (parse_network envDefault ["sw a(²)"]) = none ∧
    parse_bool (parse_network envDefault ["sw a(²)"]) = none :=
  ⟨rfl, rfl, rfl, rfl, rfl⟩

/-- C6 (amended): a switch declaration's parenthesized literal is
accepted iff it is a NUMBER token whose full `int()` parse yields 0 or 1
(a membership check with no leading-zero rejection), the parsed value
being forwarded as the initial state; a non-NUMBER token, and a NUMBER
token whose `int()` parse yields another value, fail with "Expecting 0
or 1" at that symbol, while a NUMBER token on which `int()` fails (a
digit-only character such as '²') crashes the parse with an uncaught
ValueError; `sw a(2)` fails at the column of `2` and `sw a(0)` succeeds
with initial state 0. -/
theorem switch_state_validation (a o s : PSym) (tr : List Call) (lc : Nat)
    (ha : a.type = .NAME) (ho : o.type = .OPEN) :
    (∀ rest : List PSym, s.type ≠ .NUMBER →
      _parse_SWITCH_body ⟨a :: o :: s :: rest, tr, lc⟩ =
        .err ⟨"Expecting 0 or 1", some s⟩ ⟨rest, tr, lc⟩) ∧
    (∀ (rest : List PSym) (w : String) (v : Nat), s.type = .NUMBER →
      s.id = some w → pyInt w = some v → v ≠ 0 → v ≠ 1 →
      _parse_SWITCH_body ⟨a :: o :: s :: rest, tr, lc⟩ =
        .err ⟨"Expecting 0 or 1", some s⟩ ⟨rest, tr, lc⟩) ∧
    (∀ (cl : PSym) (rest : List PSym) (w : String) (v : Nat),
      s.type = .NUMBER → s.id = some w → pyInt w = some v →
      (v = 0 ∨ v = 1) → cl.type = .CLOSE →
      _parse_SWITCH_body ⟨a :: o :: s :: cl :: rest, tr, lc⟩ =
        .ok () ⟨rest, tr ++ [.make_switch a.id v], lc⟩) ∧
    (∀ (rest : List PSym) (w : String), s.type = .NUMBER → s.id = some w →
      pyInt w = none →
      _parse_SWITCH_body ⟨a :: o :: s :: rest, tr, lc⟩ =
        .crash ⟨rest, tr, lc⟩) ∧
    (∀ env : Env, parse_network env ["sw a(2)"] =
      .err ⟨"Expecting 0 or 1", some ⟨.NUMBER, some "2", some 5⟩⟩
        ⟨[⟨.CLOSE, some ")", some 6⟩, ⟨.EOL, none, some 7⟩,
          ⟨.EOF, none, none⟩], [], 1⟩) ∧
    (∀ env : Env, parse_network env ["sw a(0)"] =
      .ok () ⟨[], [.make_switch (some "a") 0], 2⟩) := by
  refine ⟨?_, ?_, ?_, ?_, fun env => rfl, fun env => rfl⟩
  · intro rest hnum
    simp [_parse_SWITCH_body, _parse_identifier, _parse_open_bracket,
      get_symbol, PResult.bind, ha, ho, hnum]
  · intro rest w v hnum hid hpy h0 h1
    simp [_parse_SWITCH_body, _parse_identifier, _parse_open_bracket,
      get_symbol, PResult.bind, ha, ho, hnum, hid, hpy, h0, h1]
  · intro cl rest w v hnum hid hpy hmem hcl
    rcases hmem with h | h <;> subst h <;>
      simp [_parse_SWITCH_body, _parse_identifier, _parse_open_bracket,
        _parse_close_bracket, get_symbol, PResult.bind, ha, ho, hnum, hid,
        hpy, hcl]
  · intro rest w hnum hid hpy
    simp [_parse_SWITCH_body, _parse_identifier, _parse_open_bracket,
      get_symbol, PResult.bind, ha, ho, hnum, hid, hpy]

theorem gate_count_validation_witness :
    _parse_gate .AND ⟨[⟨.NAME, some "a", some 4⟩, ⟨.OPEN, some "(", some 5⟩,
        ⟨.NUMBER, some "17", some 6⟩, ⟨.CLOSE, some ")", some 8⟩,
        ⟨.EOL, none, some 9⟩], [], 1⟩ =
      .err ⟨"Expecting a number from 1-16", some ⟨.NUMBER, some "17", some 6⟩⟩
        ⟨[⟨.CLOSE, some ")", some 8⟩, ⟨.EOL, none, some 9⟩], [], 1⟩ :=
  (gate_count_validation .AND ⟨.NAME, some "a", some 4⟩
    ⟨.OPEN, some "(", some 5⟩ ⟨.NUMBER, some "17", some 6⟩ [] 1
    (by decide) rfl rfl).2.2.1
    [⟨.CLOSE, some ")", some 8⟩, ⟨.EOL, none, some 9⟩] "17" '1' ['7']
    rfl rfl rfl (by decide) (by decide) (Or.inr (by decide))

theorem switch_state_validation_witness :
    _parse_SWITCH_body ⟨[⟨.NAME, some "a", some 3⟩, ⟨.OPEN, some "(", some 4⟩,
        ⟨.NUMBER, some "01", some 5⟩, ⟨.CLOSE, some ")", some 7⟩,
        ⟨.EOL, none, some 8⟩], [], 1⟩ =
      .ok () ⟨[⟨.EOL, none, some 8⟩], [.make_switch (some "a") 1], 1⟩ :=
  (switch_state_validation ⟨.NAME, some "a", some 3⟩ ⟨.OPEN, some "(", some 4⟩
    ⟨.NUMBER, some "01", some 5⟩ [] 1 rfl rfl).2.2.1
    ⟨.CLOSE, some ")", some 7⟩ [⟨.EOL, none, some 8⟩] "01" 1 rfl rfl
    (by decide) (Or.inr rfl) rfl

/-- C5: in a connection statement, after `=` the parser reads the second
device identifier and then either ends at EOL (no second port), or reads
`.` followed by a port identifier and then requires EOL; a trailing token
after the bare second device that is neither EOL nor `.` fails with
"Expecting '.'" at that symbol, and a trailing non-EOL token after the
second port fails with "Expecting EOL" at that symbol. -/
theorem connection_tail_grammar (env : Env) (first eq2 d2 : PSym)
    (tr : List Call) (lc : Nat)
    (heq : eq2.type = .EQUALS) (hd2 : d2.type = .NAME) :
    (∀ (t : PSym) (rest : List PSym), t.type = .EOL →
      env.connection_status tr first.id none d2.id none = .NO_ERROR →
      _parse_connection env first ⟨eq2 :: d2 :: t :: rest, tr, lc⟩ =
        .ok () ⟨rest, tr ++ [.make_connection first.id none d2.id none],
          lc⟩) ∧
    (∀ (t : PSym) (rest : List PSym), t.type ≠ .EOL → t.type ≠ .DOT →
      _parse_connection env first ⟨eq2 :: d2 :: t :: rest, tr, lc⟩ =
        .err ⟨"Expecting '.'", some t⟩ ⟨rest, tr, lc⟩) ∧
    (∀ (dot p u : PSym) (rest : List PSym), dot.type = .DOT →
      p.type = .NAME → u.type = .EOL →
      env.connection_status tr first.id none d2.id p.id = .NO_ERROR →
      _parse_connection env first
          ⟨eq2 :: d2 :: dot :: p :: u :: rest, tr, lc⟩ =
        .ok () ⟨rest, tr ++ [.make_connection first.id none d2.id p.id],
          lc⟩) ∧
    (∀ (dot p u : PSym) (rest : List PSym), dot.type = .DOT →
      p.type = .NAME → u.type ≠ .EOL →
      _parse_connection env first
          ⟨eq2 :: d2 :: dot :: p :: u :: rest, tr, lc⟩ =
        .err ⟨"Expecting EOL", some u⟩ ⟨rest, tr, lc⟩) := by
  refine ⟨?_, ?_, ?_, ?_⟩
  · intro t rest ht hst
    simp [_parse_connection, parse_right, finish_connection,
      _parse_identifier, get_symbol, PResult.bind, heq, hd2, ht, hst]
  · intro t rest ht hdot
    simp [_parse_connection, parse_right, _parse_identifier, get_symbol,
      PResult.bind, heq, hd2, ht, hdot]
  · intro dot p u rest hdot hp hu hst
    simp [_parse_connection, parse_right, finish_connection,
      _parse_identifier, get_symbol, PResult.bind, heq, hd2, hdot, hp, hu,
      hst]
  · intro dot p u rest hdot hp hu
    simp [_parse_connection, parse_right, _parse_identifier, get_symbol,
      PResult.bind, heq, hd2, hdot, hp, hu]

/-- C8: parsing is deterministic — two runs on the same source text
against collaborator builders with identical behavior produce identical
builder-call sequences and the same boolean result. -/
theorem parse_network_deterministic (lines : List String) (e1 e2 : Env)
    (hm : e1.monitor_status = e2.monitor_status)
    (hc : e1.connection_status = e2.connection_status) :
    resultTrace (parse_network e1 lines) =
      resultTrace (parse_network e2 lines) ∧
    parse_bool (parse_network e1 lines) =
      parse_bool (parse_network e2 lines) := by
  obtain ⟨m1, c1⟩ := e1
  obtain ⟨m2, c2⟩ := e2
  cases hm
  cases hc
  exact ⟨rfl, rfl⟩

theorem connection_tail_grammar_witness :
    _parse_connection envDefault ⟨.NAME, some "a", some 0⟩
        ⟨⟨.EQUALS, some "=", some 2⟩ :: ⟨.NAME, some "b", some 4⟩ ::
          ⟨.NUMBER, some "3", some 6⟩ :: [], [], 1⟩ =
      .err ⟨"Expecting '.'", some ⟨.NUMBER, some "3", some 6⟩⟩ ⟨[], [], 1⟩ :=
  (connection_tail_grammar envDefault ⟨.NAME, some "a", some 0⟩
    ⟨.EQUALS, some "=", some 2⟩ ⟨.NAME, some "b", some 4⟩ [] 1 rfl rfl).2.1
    ⟨.NUMBER, some "3", some 6⟩ [] (by decide) (by decide)

theorem parse_network_deterministic_witness :
    resultTrace (parse_network envDefault ["xor a, b"]) =
      resultTrace (parse_network envDefault ["xor a, b"]) ∧
    parse_bool (parse_network envDefault ["xor a, b"]) =
      parse_bool (parse_network envDefault ["xor a, b"]) :=
  parse_network_deterministic ["xor a, b"] envDefault envDefault rfl rfl

/-- Folding decimal digits onto a positive accumulator stays positive. -/
theorem foldl_digits_pos (l : List Char) (n : Nat) (hn : 1 ≤ n) :
    1 ≤ l.foldl (fun n c => n * 10 + (c.toNat - 48)) n := by
  induction l generalizing n with
  | nil => simpa using hn
  | cons x xs ih =>
    simp only [List.foldl_cons]
    exact ih _ (by omega)

/-- An all-digit string whose first character is not '0' parses to an
integer of at least 1. -/
theorem strToNat_pos (w : String) (c : Char) (t : List Char)
    (hw : w.toList = c :: t) (hc : c ≠ '0')
    (hd : (c :: t).all Char.isDigit = true) : 1 ≤ strToNat w := by
  have hcd : c.isDigit = true := by
    simp [List.all_cons] at hd
    exact hd.1
  have h48 : 48 ≤ c.toNat ∧ c.toNat ≤ 57 := by
    simpa [Char.isDigit] using hcd
  have hne : c.toNat ≠ 48 := fun h => hc (Char.ext (UInt32.ext h))
  rw [strToNat, hw]
  simp only [List.foldl_cons]
  exact foldl_digits_pos t _ (by omega)

/-- C10 counterexample: on `clk a(٠)` (Arabic-Indic zero, U+0660) the
token is NUMBER, its single character differs from ASCII '0' so the
`name_string[0] == "0"` check passes, and `int()` parses it to 0 — the
`clock_half_period < 1` branch fires and raises "Expecting a number > 0"
there, so that branch is reachable and the parsed integer of a NUMBER
token with no leading ASCII '0' can be below 1. -/
theorem clock_low_branch_reached :
    get_symbol_type "٠" = .NUMBER ∧
    "٠".toList = ['٠'] ∧ ('٠' : Char) ≠ '0' ∧
    pyInt "٠" = some 0 ∧
    parse_network envDefault ["clk a(٠)"] =
      .err ⟨"Expecting a number > 0", some ⟨.NUMBER, some "٠", some 6⟩⟩
        ⟨[⟨.CLOSE, some ")", some 7⟩, ⟨.EOL, none, some 8⟩,
          ⟨.EOF, none, none⟩], [], 1⟩ :=
  ⟨rfl, rfl, by decide, rfl, rfl⟩

/-- C10 (amended): the clock declaration's branch rejecting a parsed
half-period below 1 is unreachable for NUMBER tokens made of ASCII
digits — for such a token whose string does not start with '0', the
parsed integer is at least 1, and no failure of the clock rule on it
carries the "Expecting a number > 0" message; the branch is reachable
only through NUMBER tokens holding non-ASCII decimal digits such as
'٠', which pass the ASCII leading-zero check yet parse below 1. -/
theorem clock_low_branch_unreachable (a o s : PSym) (tr : List Call)
    (lc : Nat) (rest : List PSym) (w : String) (c : Char) (t : List Char)
    (ha : a.type = .NAME) (ho : o.type = .OPEN) (hs : s.type = .NUMBER)
    (hid : s.id = some w) (hw : w.toList = c :: t) (hc : c ≠ '0')
    (hd : w.toList.all Char.isDigit = true) :
    1 ≤ strToNat w ∧
    ∀ (e : ParsingError) (st : PState),
      _parse_CLOCK_body ⟨a :: o :: s :: rest, tr, lc⟩ = .err e st →
      e.message ≠ "Expecting a number > 0" := by
  have hw' : w.data = c :: t := hw
  have hdc := hd
  rw [hw] at hdc
  have hpos : 1 ≤ strToNat w := strToNat_pos w c t hw hc hdc
  refine ⟨hpos, ?_⟩
  intro e st h
  have hne : w.toList.isEmpty = false := by rw [hw]; rfl
  have hpy : pyInt w = some (strToNat w) := pyInt_ascii w hne hd
  have hne0 : ¬ (strToNat w = 0) := by omega
  have hlt : ¬ (strToNat w < 1) := by omega
  simp [_parse_CLOCK_body, _parse_identifier, _parse_open_bracket,
    get_symbol, PResult.bind, ha, ho, hs, hid, hw', hc, hpy, hne0,
    hlt] at h
  cases rest with
  | nil => simp [_parse_close_bracket, get_symbol, PResult.bind] at h
  | cons x xs =>
    by_cases hx : x.type = .CLOSE
    · simp [_parse_close_bracket, get_symbol, PResult.bind, hx] at h
    · simp [_parse_close_bracket, get_symbol, PResult.bind, hx] at h
      obtain ⟨h1, h2⟩ := h
      rw [← h1]
      simp

theorem clock_low_branch_unreachable_witness : 1 ≤ strToNat "5" :=
  (clock_low_branch_unreachable ⟨.NAME, some "a", some 4⟩
    ⟨.OPEN, some "(", some 5⟩ ⟨.NUMBER, some "5", some 6⟩ [] 1 [] "5" '5' []
    rfl rfl rfl rfl rfl (by decide) (by decide)).1
